import Mathlib

/-!
# sortfileslocally — verification of the spec against the code

Shallow embedding of the client components under `src/web` (ScanUI, ChatPanel,
GalleryGrid, the Home page, and the infinite-query Gallery variant) together
with spec-modelled definitions for the backend core (Scan Orchestrator,
Query Engine) that the repository documents but does not ship under `src/`.
-/

namespace SortFiles

/-! ## JavaScript truthiness helpers

The client reads every status field through optional chaining and `||`
defaults, so `undefined`, `null`, `0` and `""` all collapse to a default.
These helpers reproduce that semantics over `Option`. -/

/-- Truthiness of an optional string: `undefined`/`null`/`""` are falsy. -/
def jsStrTruthy (o : Option String) : Bool :=
  match o with
  | some s => s != ""
  | none => false

/-- `x || 0` on an optional rational: `undefined` and `0` give `0`. -/
def jsOrZero (o : Option ℚ) : ℚ :=
  match o with
  | some q => if q = 0 then 0 else q
  | none => 0

/-- `x || 0` on an optional count. -/
def jsNatOrZero (o : Option Nat) : Nat :=
  match o with
  | some n => if n = 0 then 0 else n
  | none => 0

/-- `s.trim()`: strip leading and trailing whitespace (structural form, so
that concrete instances evaluate). -/
def jsTrim (s : String) : String :=
  String.mk (((s.data.dropWhile Char.isWhitespace).reverse.dropWhile
    Char.isWhitespace).reverse)

/-! ## Scan status payload and the ScanUI component
(src/web/src/components/ScanUI.tsx) -/

/-- Shape of the `GET /scan/status` payload as the client consumes it.
All fields are optional-chained in the component, so each is an `Option`;
`is_active` is read only for truthiness. -/
structure ScanStatus where
  is_active : Bool
  current_file : Option String
  progress_percent : Option ℚ
  processed_count : Option Nat
  total_files : Option Nat
  eta_seconds : Option ℚ
  error : Option String
deriving DecidableEq, Repr

/-- `status?.is_active` with `status` possibly `null`. -/
def statusActive (status : Option ScanStatus) : Bool :=
  match status with
  | some st => st.is_active
  | none => false

/-- `f.split(/[/\\]/).pop()` — the final path component shown in the
progress header. -/
def baseName (f : String) : String :=
  ((f.split (fun c => c == '/' || c == '\\')).getLast?).getD ""

/-- `status?.current_file ? status.current_file.split(...).pop() : "Preparing..."`. -/
def currentFileLabel (cf : Option String) : String :=
  match cf with
  | some f => if f = "" then "Preparing..." else baseName f
  | none => "Preparing..."

/-- `formatETA` from ScanUI.tsx: `!seconds || seconds <= 0` yields `"--:--"`,
otherwise `m` minutes and `s` seconds with `Math.floor`. -/
def formatETA (seconds : Option ℚ) : String :=
  match seconds with
  | none => "--:--"
  | some q =>
      if q ≤ 0 then "--:--"
      else
        let m : Int := Int.floor (q / 60)
        let s : Int := Int.floor (q - 60 * Int.floor (q / 60))
        toString m ++ "m " ++ toString s ++ "s"

/-- The progress block rendered while a scan is active (ScanUI.tsx lines
109–130): current-file label, shown percent, clamped bar width, counts, ETA. -/
structure ProgressView where
  fileLabel : String
  percentShown : ℚ
  fillWidth : ℚ
  processedShown : Nat
  totalShown : Nat
  etaShown : String
deriving DecidableEq, Repr

/-- Build the progress block from the polled status, field by field from the
JSX: the bar width is `Math.min(100, Math.max(0, status?.progress_percent || 0))`. -/
def progressViewOf (st : ScanStatus) : ProgressView :=
  { fileLabel := currentFileLabel st.current_file
  , percentShown := jsOrZero st.progress_percent
  , fillWidth := min 100 (max 0 (jsOrZero st.progress_percent))
  , processedShown := jsNatOrZero st.processed_count
  , totalShown := jsNatOrZero st.total_files
  , etaShown := formatETA st.eta_seconds }

/-- The rendered ScanUI, abstracted to what each conditional branch of the
JSX emits: input `disabled` flags, the two error banners, the Start button
(with its `disabled` flag) when rendered, and the progress block when
rendered. -/
structure ScanView where
  pathInputDisabled : Bool
  forceInputDisabled : Bool
  forceChecked : Bool
  startErrorBanner : Option String
  jobErrorBanner : Option String
  startButton : Option Bool
  progress : Option ProgressView
deriving DecidableEq, Repr

/-- The ScanUI render function (ScanUI.tsx lines 52–133).
`startError` is the component-local `error` state set by a failed start;
`{status?.error && ...}` gates the job-level banner; the Start button is
rendered only on the `!status?.is_active` branch and is disabled while
`starting || !path.trim()`. -/
def renderScanUI (path : String) (starting : Bool) (startError : String)
    (forceReprocess : Bool) (status : Option ScanStatus) : ScanView :=
  { pathInputDisabled := statusActive status
  , forceInputDisabled := statusActive status
  , forceChecked := forceReprocess
  , startErrorBanner := if startError = "" then none else some startError
  , jobErrorBanner :=
      match status with
      | some st =>
          match st.error with
          | some e => if e = "" then none else some ("Background Scan Error: " ++ e)
          | none => none
      | none => none
  , startButton :=
      if statusActive status then none else some (starting || jsTrim path == "")
  , progress :=
      match status with
      | some st => if st.is_active then some (progressViewOf st) else none
      | none => none }

/-! ## API requests issued by the client (src lib api, read from the
bundled `@/lib/api` module in ChatPanel.tsx lines 141–232) -/

/-- `POST /gallery/chat` body: exactly `{ file_path, prompt }`. -/
structure ChatRequestBody where
  file_path : String
  prompt : String
deriving DecidableEq, Repr

/-- The network requests the embedded handlers can issue. -/
inductive ApiRequest
  | scanStart (target_path : String) (force_reprocess : Bool)
  | gallery (params : List (String × String))
  | gallerySearch (query : String) (top_k : Nat)
  | galleryChat (body : ChatRequestBody)
deriving DecidableEq, Repr

/-- Outcome of `handleStart` in ScanUI.tsx (lines 31–43): the guard
`if (!path.trim()) return;` comes before `setStarting(true)` and before the
`startScan` fetch, so a blank path issues no request and touches no state. -/
structure StartAttempt where
  requests : List ApiRequest
  touchedState : Bool
deriving DecidableEq, Repr

/-- `handleStart` from ScanUI.tsx. -/
def handleStart (path : String) (forceReprocess : Bool) : StartAttempt :=
  if jsTrim path = "" then { requests := [], touchedState := false }
  else { requests := [ApiRequest.scanStart (jsTrim path) forceReprocess], touchedState := true }

/-! ## Media items and the chat panel
(src/web/src/components/ChatPanel.tsx and the bundled `@/lib/api`) -/

/-- `MediaItem` from the api module: gallery row plus the optional search
`snippet`. -/
structure MediaItem where
  id : Nat
  file_path : String
  media_type : String
  width : Option Int
  height : Option Int
  tags : List String
  character_tags : List String
  series_tags : List String
  snippet : Option String
deriving DecidableEq, Repr

/-- Chat message roles. -/
inductive Role
  | user
  | assistant
deriving DecidableEq, Repr

/-- A chat transcript entry. -/
structure Message where
  role : Role
  content : String
deriving DecidableEq, Repr

/-- The greeting seeded into the transcript when an item is selected. -/
def chatGreeting : Message :=
  { role := Role.assistant
  , content := "Hi! I\x27m analyzing this image. What would you like to know?" }

/-- The fixed assistant message appended when a chat call fails. -/
def chatErrorText : String :=
  "Sorry, I encountered an error while analyzing the image."

/-- The `useEffect` on `[item]` (ChatPanel.tsx lines 23–34): clear the
transcript, then seed the greeting when an item is selected. -/
def chatReset (item : Option MediaItem) : List Message :=
  match item with
  | some _ => [chatGreeting]
  | none => []

/-- What the fetch inside `chatWithImage` came back with: a rejected fetch,
or a response with its `ok` flag and parsed `answer`. -/
inductive HttpChat
  | failure (message : String)
  | response (ok : Bool) (answer : String)
deriving DecidableEq, Repr

/-- A chat HTTP interaction that failed: a rejected fetch, or a response
whose `ok` flag is down. -/
def HttpChat.isFailure : HttpChat → Bool
  | HttpChat.failure _ => true
  | HttpChat.response ok _ => !ok

/-- `chatWithImage` from the api module: the request body is exactly
`{ file_path, prompt }`; a non-ok response throws `"Chat failed"`, a rejected
fetch propagates, otherwise `data.answer` is returned. -/
def chatWithImage (file_path prompt : String) (r : HttpChat) :
    ChatRequestBody × Except String String :=
  ({ file_path := file_path, prompt := prompt },
    match r with
    | HttpChat.failure m => Except.error m
    | HttpChat.response ok ans =>
        if ok then Except.ok ans else Except.error "Chat failed")

/-- ChatPanel component state. -/
structure ChatState where
  messages : List Message
  input : String
  isLoading : Bool
deriving DecidableEq, Repr

/-- `handleSend` (ChatPanel.tsx lines 43–63) run to completion against a
given HTTP outcome: guard on blank input or a call in flight, append the
user message, call `chatWithImage item.file_path userMessage`, then append
either the returned answer or the fixed error text. Returns the new state
and the request body sent, if any. -/
def handleSend (item : MediaItem) (st : ChatState) (r : HttpChat) :
    ChatState × Option ChatRequestBody :=
  if jsTrim st.input = "" || st.isLoading then (st, none)
  else
    let userMessage := jsTrim st.input
    let (body, outcome) := chatWithImage item.file_path userMessage r
    let reply :=
      match outcome with
      | Except.ok ans => ans
      | Except.error _ => chatErrorText
    ({ messages := st.messages
        ++ [{ role := Role.user, content := userMessage },
            { role := Role.assistant, content := reply }]
      , input := ""
      , isLoading := false }, some body)

/-- The snippet block of `MediaCard` (GalleryGrid.tsx lines 82–90):
`{item.snippet && (... {item.snippet} ...)}` — rendered text when truthy. -/
def renderSnippetBlock (item : MediaItem) : Option String :=
  if jsStrTruthy item.snippet then some (item.snippet.getD "") else none

/-! ## Home page: gallery loading, semantic search, client-side filtering
(the Home component bundled in ChatPanel.tsx, lines 241–371) -/

/-- Sidebar filter state (src Sidebar component): `undefined` means All. -/
structure FilterState where
  character : Option String
  series : Option String
  media_type : Option String
deriving DecidableEq, Repr

/-- A query-string parameter appended only when its value is truthy. -/
def optParam (k : String) (v : Option String) : List (String × String) :=
  match v with
  | some s => if s = "" then [] else [(k, s)]
  | none => []

/-- A numeric query-string parameter appended only when truthy (so `0` is
dropped, as `if (options.offset)` does). -/
def natParam (k : String) (v : Option Nat) : List (String × String) :=
  match v with
  | some n => if n = 0 then [] else [(k, toString n)]
  | none => []

/-- `fetchMedia` request building from the api module, with the parameter
order of the source: limit, offset, character, series, media_type. -/
def fetchMediaRequest (f : FilterState) (offset limit : Nat) : ApiRequest :=
  ApiRequest.gallery
    (natParam "limit" (some limit) ++ natParam "offset" (some offset)
      ++ optParam "character" f.character ++ optParam "series" f.series
      ++ optParam "media_type" f.media_type)

/-- `searchMedia` from the api module: `POST /gallery/search` with the query
and `top_k` defaulting to 50. -/
def searchMedia (query : String) (top_k : Nat := 50) : ApiRequest :=
  ApiRequest.gallerySearch query top_k

/-- Home component state. -/
structure HomeState where
  media : List MediaItem
  selectedItem : Option MediaItem
  loading : Bool
  errMsg : String
  currentSearch : String
  offset : Nat
  hasMore : Bool
  isLoadingMore : Bool
deriving DecidableEq, Repr

/-- `loadMedia(currentOffset, currentFilters)` run against a fetch outcome:
first page replaces `media`, later pages append; `hasMore` becomes
`data.length === limit` with `limit = 50`. -/
def loadMedia (st : HomeState) (f : FilterState) (currentOffset : Nat)
    (outcome : Except Unit (List MediaItem)) : HomeState × List ApiRequest :=
  let req := fetchMediaRequest f currentOffset 50
  match outcome with
  | Except.ok data =>
      (if currentOffset = 0 then
        { st with media := data, hasMore := data.length = 50, loading := false }
      else
        { st with media := st.media ++ data, hasMore := data.length = 50
                , isLoadingMore := false }, [req])
  | Except.error _ =>
      (if currentOffset = 0 then
        { st with errMsg := "Failed to load gallery.", loading := false }
      else
        { st with errMsg := "Failed to load gallery.", isLoadingMore := false }, [req])

/-- `if (filters.media_type) filteredResults = filteredResults.filter(r => r.media_type === filters.media_type)`. -/
def filterMediaType (f : FilterState) (rs : List MediaItem) : List MediaItem :=
  if jsStrTruthy f.media_type then
    rs.filter (fun r => r.media_type == f.media_type.getD "")
  else rs

/-- `if (filters.character) filteredResults = filteredResults.filter(r => r.character_tags.includes(filters.character!))`. -/
def filterCharacter (f : FilterState) (rs : List MediaItem) : List MediaItem :=
  if jsStrTruthy f.character then
    rs.filter (fun r => r.character_tags.contains (f.character.getD ""))
  else rs

/-- `if (filters.series) filteredResults = filteredResults.filter(r => r.series_tags.includes(filters.series!))`. -/
def filterSeries (f : FilterState) (rs : List MediaItem) : List MediaItem :=
  if jsStrTruthy f.series then
    rs.filter (fun r => r.series_tags.contains (f.series.getD ""))
  else rs

/-- The client-side filtering block of `handleSearch` (lines 307–317): each
active (truthy) sidebar filter removes non-matching search results, in the
source's order. -/
def applyClientFilters (f : FilterState) (results : List MediaItem) : List MediaItem :=
  filterSeries f (filterCharacter f (filterMediaType f results))

/-- `handleSearch(query)` (lines 296–327) run against the network outcome:
a blank (after trim) query resets to browsing via `loadMedia(0, filters)`;
otherwise one `searchMedia(query)` call (`top_k = 50`), client-side
filtering, chat closed, `hasMore` set to `false`. -/
def handleSearch (q : String) (f : FilterState) (st : HomeState)
    (outcome : Except Unit (List MediaItem)) : HomeState × List ApiRequest :=
  let st0 := { st with currentSearch := q }
  if jsTrim q = "" then
    loadMedia { st0 with offset := 0 } f 0 outcome
  else
    match outcome with
    | Except.ok results =>
        ({ st0 with media := applyClientFilters f results
                  , selectedItem := none
                  , hasMore := false
                  , loading := false }, [searchMedia q])
    | Except.error _ =>
        ({ st0 with errMsg := "Search failed.", loading := false }, [searchMedia q])

/-- `handleLoadMore` (lines 288–294): only fires while not searching, more
pages remain, and nothing is already loading. -/
def handleLoadMore (st : HomeState) (f : FilterState)
    (outcome : Except Unit (List MediaItem)) : HomeState × List ApiRequest :=
  if st.currentSearch = "" && st.hasMore && !st.loading && !st.isLoadingMore then
    loadMedia { st with offset := st.offset + 50 } f (st.offset + 50) outcome
  else (st, [])

/-! ## The infinite-query Gallery variant
(src/web/components/gallery/Gallery.tsx) -/

/-- Query-string parameters of the browse branch of `fetchGallery`:
`limit=50`, `offset=pageParam`, then character/series unless `All`,
then media_type when truthy. -/
def galleryParams (character series media_type : Option String)
    (pageParam : Nat) : List (String × String) :=
  [("limit", "50"), ("offset", toString pageParam)]
    ++ (match character with
        | some c => if c != "" && c != "All" then [("character", c)] else []
        | none => [])
    ++ (match series with
        | some s => if s != "" && s != "All" then [("series", s)] else []
        | none => [])
    ++ optParam "media_type" media_type

/-- `fetchGallery` (Gallery.tsx lines 22–46) against a server function:
with `q` truthy it always performs the single `POST /gallery/search` with
`top_k=50` and returns the flat item list only for `pageParam === 0`;
otherwise the paginated browse fetch. Returns the items and the requests
issued. -/
def fetchGallery (q character series media_type : Option String) (pageParam : Nat)
    (server : ApiRequest → List MediaItem) : List MediaItem × List ApiRequest :=
  if jsStrTruthy q then
    let req := ApiRequest.gallerySearch (q.getD "") 50
    let items := server req
    (if pageParam = 0 then items else [], [req])
  else
    let req := ApiRequest.gallery (galleryParams character series media_type pageParam)
    (server req, [req])

/-- `getNextPageParam` (Gallery.tsx lines 60–66): `undefined` whenever `q`
is set, `undefined` on a short page, else the next offset. -/
def getNextPageParam (q : Option String) (lastPage : List MediaItem)
    (allPagesLen : Nat) : Option Nat :=
  if jsStrTruthy q then none
  else if lastPage.length < 50 then none
  else some (allPagesLen * 50)

/-- The `useInfiniteQuery` paging loop: keep fetching while
`getNextPageParam` yields a page parameter (fuel-bounded). -/
def iqLoop (q character series media_type : Option String)
    (server : ApiRequest → List MediaItem) :
    Nat → List (List MediaItem) → List ApiRequest → List MediaItem →
      List (List MediaItem) × List ApiRequest
  | 0, pages, reqs, _ => (pages, reqs)
  | fuel + 1, pages, reqs, lastPage =>
      match getNextPageParam q lastPage pages.length with
      | none => (pages, reqs)
      | some p =>
          let (items, rs) := fetchGallery q character series media_type p server
          iqLoop q character series media_type server fuel
            (pages ++ [items]) (reqs ++ rs) items

/-- The whole infinite query: page 0 (`initialPageParam: 0`) then the loop. -/
def runInfiniteQuery (fuel : Nat) (q character series media_type : Option String)
    (server : ApiRequest → List MediaItem) :
    List (List MediaItem) × List ApiRequest :=
  let (items0, rs0) := fetchGallery q character series media_type 0 server
  iqLoop q character series media_type server fuel [items0] rs0 items0

/-! ## Spec-modelled ScanJob singleton (backend, absent from src/) -/

/-- Modelled from the spec: the backend ScanJob state machine of §4.3 is not
in the visible source; states `idle → scanning → (completed | error)`. -/
inductive JobState
  | idle
  | scanning
  | completed
  | failed
deriving DecidableEq, Repr

/-- A ScanJob is active exactly in the `scanning` state. -/
def JobState.isActive (j : JobState) : Bool := j == JobState.scanning

/-- Modelled from the spec: the `JobAlreadyRunning` failure of §4.3/§6. -/
inductive StartFailure
  | jobAlreadyRunning
deriving DecidableEq, Repr

/-- Result of a successful scan start: the new job state and the filesystem
traversals begun (a start that fails performs no filesystem work). -/
structure StartResult where
  job : JobState
  fsWalks : Nat
deriving DecidableEq, Repr

/-- Modelled from the spec: `POST /scan/start` handling (§4.3, §6) is absent
from src/. `idle`, `completed` and `error` all accept a start and move to
`scanning` beginning one traversal; a start while `scanning` fails with
`JobAlreadyRunning`, neither queuing nor preempting, and performs no
filesystem work. -/
def startScanJob (j : JobState) : Except StartFailure StartResult :=
  match j with
  | JobState.scanning => Except.error StartFailure.jobAlreadyRunning
  | _ => Except.ok { job := JobState.scanning, fsWalks := 1 }

/-! ## Spec-modelled Query Engine (backend, absent from src/) -/

/-- Modelled from the spec: an EmbeddingRecord (§3, §4.4) — a vector owned
by one MediaFile; `segText = some t` when it belongs to a text Segment
(keyframe description or transcript chunk) with text `t`, `none` for an
image-level embedding. -/
structure EmbRecord where
  id : Nat
  fileId : Nat
  segText : Option String
  vec : List Int
deriving DecidableEq, Repr

/-- Inner-product similarity between the encoded query and a stored vector. -/
def dotScore (q v : List Int) : Int := (List.zipWith (fun a b => a * b) q v).sum

/-- Ranking order of §4.4 step 5: descending score, ties by MediaFile id. -/
def rankBefore (a b : EmbRecord × Int) : Bool :=
  b.2 < a.2 || (a.2 == b.2 && a.1.fileId ≤ b.1.fileId)

/-- Insertion into a ranked list. -/
def insertRanked (x : EmbRecord × Int) : List (EmbRecord × Int) → List (EmbRecord × Int)
  | [] => [x]
  | y :: ys => if rankBefore x y then x :: y :: ys else y :: insertRanked x ys

/-- Insertion sort by `rankBefore`. -/
def sortRanked : List (EmbRecord × Int) → List (EmbRecord × Int)
  | [] => []
  | x :: xs => insertRanked x (sortRanked xs)

/-- §4.4 step 3: walking the ranked candidates, keep only the first (hence
highest-scoring) record of each MediaFile. -/
def dedupByFile : List (EmbRecord × Int) → List Nat → List (EmbRecord × Int)
  | [], _ => []
  | x :: xs, seen =>
      if seen.contains x.1.fileId then dedupByFile xs seen
      else x :: dedupByFile xs (x.1.fileId :: seen)

/-- One ranked search hit: the MediaFile, its score, and the optional
snippet of §4.4 step 4. -/
structure SearchResult where
  fileId : Nat
  score : Int
  snippet : Option String
deriving DecidableEq, Repr

/-- Modelled from the spec: the Query Engine `search` of §4.4 is absent from
src/. Score every EmbeddingRecord in the unified pool, rank by descending
score (ties by file id), drop all but the best record per MediaFile, trim to
`top_k`, and attach the winning record's Segment text as `snippet` (so an
image-level winner carries none). -/
def searchIndex (queryVec : List Int) (idx : List EmbRecord) (top_k : Nat) :
    List SearchResult :=
  let scored := idx.map (fun r => (r, dotScore queryVec r.vec))
  let deduped := dedupByFile (sortRanked scored) []
  (deduped.take top_k).map
    (fun p => { fileId := p.1.fileId, score := p.2, snippet := p.1.segText })

/-! ## Spec-modelled Scan Orchestrator dual-store writes
(backend, absent from src/) -/

/-- Modelled from the spec: MediaFile processing status (§3). -/
inductive FileStatus
  | pending
  | processed
  | failed
deriving DecidableEq, Repr

/-- Modelled from the spec: the Metadata Store row of one MediaFile — its
status and the ids of the EmbeddingRecords reachable from it. -/
structure FileMeta where
  status : FileStatus
  embIds : List Nat
deriving DecidableEq, Repr

/-- Modelled from the spec: one Vector Index entry; `pendingMark` is the §9
write-ahead marker under which new vectors are staged before the metadata
commit makes them live. -/
structure VecEntry where
  id : Nat
  owner : String
  pendingMark : Bool
deriving DecidableEq, Repr

/-- Modelled from the spec: the dual stores written by §4.3.3. -/
structure Stores where
  meta : List (String × FileMeta)
  vec : List VecEntry
deriving DecidableEq, Repr

/-- Both stores empty at process start. -/
def Stores.init : Stores := { meta := [], vec := [] }

/-- Metadata lookup by path. -/
def metaLookup (m : List (String × FileMeta)) (p : String) : Option FileMeta :=
  match m with
  | [] => none
  | (q, fm) :: rest => if q = p then some fm else metaLookup rest p

/-- Upsert of a MediaFile row (§3: updated in place on re-scan). -/
def upsertMeta (m : List (String × FileMeta)) (p : String) (fm : FileMeta) :
    List (String × FileMeta) :=
  (p, fm) :: m.filter (fun x => x.1 ≠ p)

/-- The ids live in a vector list for an owner: committed (non-pending)
entries; §9 staged entries are not yet live. -/
def liveVec (v : List VecEntry) (p : String) : List Nat :=
  (v.filter (fun e => e.owner == p && !e.pendingMark)).map (fun e => e.id)

/-- The set of ids present (live) in the Vector Index for a MediaFile. -/
def liveIds (s : Stores) (p : String) : List Nat := liveVec s.vec p

/-- A staged (pending-marked) vector entry. -/
def stagedEntry (p : String) (i : Nat) : VecEntry :=
  { id := i, owner := p, pendingMark := true }

/-- A committed vector entry. -/
def committedEntry (p : String) (i : Nat) : VecEntry :=
  { id := i, owner := p, pendingMark := false }

/-- Modelled from the spec: the individually crash-interruptible writes of
the per-file atomic unit (§4.3.3), realized with the §9 discipline — stage
the new vectors under a pending marker first, then one transactional commit
that upserts the MediaFile row as `processed` with its new EmbeddingRecord
ids, deletes the file's old vector entries (delete-then-insert, not merge)
and makes the staged ones live. A per-file failure (§4.3.5) marks the row
`failed`. A crash is simply a state with no further steps. -/
inductive ScanStep : Stores → Stores → Prop
  | stageVectors (s : Stores) (p : String) (newIds : List Nat)
      (fresh : ∀ i ∈ newIds, i ∉ s.vec.map VecEntry.id) :
      ScanStep s { s with vec := s.vec ++ newIds.map (stagedEntry p) }
  | commitFile (s : Stores) (p : String) (newIds : List Nat)
      (staged : ∀ i ∈ newIds, stagedEntry p i ∈ s.vec) :
      ScanStep s
        { meta := upsertMeta s.meta p ⟨FileStatus.processed, newIds⟩
        , vec := s.vec.filter (fun e => e.owner ≠ p)
            ++ newIds.map (committedEntry p) }
  | markFailed (s : Stores) (p : String) :
      ScanStep s
        { s with meta := upsertMeta s.meta p ⟨FileStatus.failed, []⟩ }

/-- States the orchestrator can produce: any finite prefix of steps from the
initial state — a crash between the write steps leaves exactly such a
state. -/
inductive Reachable : Stores → Prop
  | init : Reachable Stores.init
  | step {s t : Stores} : Reachable s → ScanStep s t → Reachable t

/-- The §8 consistency property: for every MediaFile with
`status = processed`, the EmbeddingRecord ids reachable from it in the
Metadata Store coincide with the ids live in the Vector Index for it. -/
def Consistent (s : Stores) : Prop :=
  ∀ p fm, metaLookup s.meta p = some fm → fm.status = FileStatus.processed →
    ∀ i, i ∈ fm.embIds ↔ i ∈ liveIds s p

/-! ## Helper lemmas -/

theorem jsOrZero_eq_getD (o : Option ℚ) : jsOrZero o = o.getD 0 := by
  cases o with
  | none => rfl
  | some q => by_cases hq : q = 0 <;> simp [jsOrZero, hq]

theorem jsStrTruthy_of_ne (s : String) (h : s ≠ "") :
    jsStrTruthy (some s) = true := by
  simp [jsStrTruthy, h]

theorem trim_ne_of_ne (q : String) (h : jsTrim q ≠ "") : q ≠ "" := by
  intro hq
  exact h (by rw [hq]; rfl)

/-! ## C10 -/

/-- C10: for every scan-status value, the rendered progress-bar fill width
equals `min(100, max(0, progress_percent))` with `0` substituted when
`progress_percent` is missing, so the displayed width always lies in
`[0, 100]` even for negative, oversized, or absent reported progress. -/
theorem progress_width_clamped (st : ScanStatus) :
    (progressViewOf st).fillWidth
        = min 100 (max 0 (st.progress_percent.getD 0))
      ∧ 0 ≤ (progressViewOf st).fillWidth
      ∧ (progressViewOf st).fillWidth ≤ 100 := by
  refine ⟨by simp [progressViewOf, jsOrZero_eq_getD], ?_, ?_⟩
  · exact le_min (by norm_num) (le_max_left 0 _)
  · exact min_le_left _ _

/-! ## C8 -/

/-- C8: a scan-start attempt with a blank (empty or whitespace-only) target
path fails fast — `handleStart` issues no network request and touches no
state, and whenever the Start button is rendered it is disabled. -/
theorem blank_path_fail_fast (path : String) (forceReprocess starting : Bool)
    (startError : String) (status : Option ScanStatus)
    (h : jsTrim path = "") :
    (handleStart path forceReprocess).requests = []
      ∧ (handleStart path forceReprocess).touchedState = false
      ∧ (renderScanUI path starting startError forceReprocess status).startButton
          = (if statusActive status then none else some true) := by
  refine ⟨by simp [handleStart, h], by simp [handleStart, h], ?_⟩
  by_cases ha : statusActive status = true
  · simp [renderScanUI, ha]
  · simp only [Bool.not_eq_true] at ha
    simp [renderScanUI, ha, h]

/-- Closed instance of `blank_path_fail_fast` at the whitespace-only path
`" "` with no status. -/
theorem blank_path_fail_fast_witness :
    (handleStart " " false).requests = []
      ∧ (handleStart " " false).touchedState = false
      ∧ (renderScanUI " " false "" false none).startButton
          = (if statusActive none then none else some true) :=
  blank_path_fail_fast " " false false "" none (by decide)

/-! ## C2 -/

/-- C2: at most one scan is ever active — while the reported status is
active the client renders no Start button and disables the path and
force-reprocess inputs, and (spec-modelled backend) starting while a job is
active fails with `JobAlreadyRunning` rather than queuing or preempting. -/
theorem single_active_scan (path : String) (starting : Bool)
    (startError : String) (forceReprocess : Bool) (st : ScanStatus)
    (h : st.is_active = true) :
    (renderScanUI path starting startError forceReprocess (some st)).startButton = none
      ∧ (renderScanUI path starting startError forceReprocess (some st)).pathInputDisabled = true
      ∧ (renderScanUI path starting startError forceReprocess (some st)).forceInputDisabled = true
      ∧ ∀ j : JobState, j.isActive = true →
          startScanJob j = Except.error StartFailure.jobAlreadyRunning := by
  refine ⟨by simp [renderScanUI, statusActive, h],
          by simp [renderScanUI, statusActive, h],
          by simp [renderScanUI, statusActive, h], ?_⟩
  intro j hj
  cases j <;> simp_all [JobState.isActive, startScanJob]

/-- Closed instance of `single_active_scan` for an active status. -/
theorem single_active_scan_witness :
    (renderScanUI "/pics" false "" false
        (some ⟨true, some "/pics/a.png", some 40, some 2, some 5, some 12, none⟩)).startButton = none
      ∧ (renderScanUI "/pics" false "" false
        (some ⟨true, some "/pics/a.png", some 40, some 2, some 5, some 12, none⟩)).pathInputDisabled = true
      ∧ (renderScanUI "/pics" false "" false
        (some ⟨true, some "/pics/a.png", some 40, some 2, some 5, some 12, none⟩)).forceInputDisabled = true
      ∧ ∀ j : JobState, j.isActive = true →
          startScanJob j = Except.error StartFailure.jobAlreadyRunning :=
  single_active_scan "/pics" false "" false
    ⟨true, some "/pics/a.png", some 40, some 2, some 5, some 12, none⟩ rfl

/-! ## C3 -/

/-- C3: the scan UI renders three mutually distinguishable states — the
Start button is rendered exactly when no job is active, the progress block
(current file, percent, counts, ETA) exactly when a job is active, and a
job-level error banner carrying the message exactly when `status.error`
holds a non-empty message — so a failed job is never a silently stuck
progress bar. -/
theorem scanui_three_states (path : String) (starting : Bool)
    (startError : String) (forceReprocess : Bool) (status : Option ScanStatus) :
    ((renderScanUI path starting startError forceReprocess status).startButton.isSome
        = !statusActive status)
      ∧ ((renderScanUI path starting startError forceReprocess status).progress.isSome
        = statusActive status)
      ∧ (∀ st, status = some st → st.is_active = true →
          (renderScanUI path starting startError forceReprocess status).progress
            = some (progressViewOf st))
      ∧ (∀ st e, status = some st → st.error = some e → e ≠ "" →
          (renderScanUI path starting startError forceReprocess status).jobErrorBanner
            = some ("Background Scan Error: " ++ e))
      ∧ (∀ st, status = some st → st.error = none →
          (renderScanUI path starting startError forceReprocess status).jobErrorBanner
            = none) := by
  refine ⟨?_, ?_, ?_, ?_, ?_⟩
  · cases status with
    | none => simp [renderScanUI, statusActive]
    | some st =>
        by_cases ha : st.is_active = true
        · simp [renderScanUI, statusActive, ha]
        · simp only [Bool.not_eq_true] at ha
          simp [renderScanUI, statusActive, ha]
  · cases status with
    | none => simp [renderScanUI, statusActive]
    | some st =>
        by_cases ha : st.is_active = true
        · simp [renderScanUI, statusActive, ha]
        · simp only [Bool.not_eq_true] at ha
          simp [renderScanUI, statusActive, ha]
  · intro st hst ha
    subst hst
    simp [renderScanUI, ha]
  · intro st e hst he hne
    subst hst
    simp [renderScanUI, he, hne]
  · intro st hst he
    subst hst
    simp [renderScanUI, he]

/-- Closed instance of `scanui_three_states` for a failed, inactive job
status: Start button rendered, no progress block, error banner with the
message. -/
theorem scanui_three_states_witness :
    (renderScanUI "/pics" false "" false
        (some ⟨false, none, none, none, none, none, some "disk offline"⟩)).startButton.isSome = true
      ∧ (renderScanUI "/pics" false "" false
        (some ⟨false, none, none, none, none, none, some "disk offline"⟩)).progress.isSome = false
      ∧ (renderScanUI "/pics" false "" false
        (some ⟨false, none, none, none, none, none, some "disk offline"⟩)).jobErrorBanner
          = some "Background Scan Error: disk offline" := by
  have h := scanui_three_states "/pics" false "" false
    (some ⟨false, none, none, none, none, none, some "disk offline"⟩)
  exact ⟨h.1.trans (by decide), h.2.1.trans (by decide),
    h.2.2.2.1 _ "disk offline" rfl rfl (by decide)⟩

/-! ## C6 -/

/-- C6: when the underlying chat request fails (rejected fetch or non-ok
response), `chatWithImage` throws, and `handleSend` appends the fixed error
message as the assistant turn — never any model-generated answer text. -/
theorem chat_failure_distinguishable (item : MediaItem) (st : ChatState)
    (r : HttpChat) (hin : jsTrim st.input ≠ "") (hld : st.isLoading = false)
    (hf : r.isFailure = true) :
    (∃ m, (chatWithImage item.file_path (jsTrim st.input) r).2 = Except.error m)
      ∧ (handleSend item st r).1.messages
          = st.messages
            ++ [{ role := Role.user, content := jsTrim st.input },
                { role := Role.assistant, content := chatErrorText }] := by
  cases r with
  | failure m =>
      exact ⟨⟨m, rfl⟩, by simp [handleSend, chatWithImage, hin, hld]⟩
  | response ok ans =>
      have hok : ok = false := by simpa [HttpChat.isFailure] using hf
      subst hok
      exact ⟨⟨"Chat failed", rfl⟩, by simp [handleSend, chatWithImage, hin, hld]⟩

/-- Closed instance of `chat_failure_distinguishable`: a non-ok response to
a concrete prompt yields the thrown error and the fixed error turn. -/
theorem chat_failure_distinguishable_witness :
    (∃ m, (chatWithImage "/a/cat.png"
        (jsTrim "what is this?") (HttpChat.response false "ignored")).2 = Except.error m)
      ∧ (handleSend ⟨1, "/a/cat.png", "image", none, none, [], [], [], none⟩
          ⟨[chatGreeting], "what is this?", false⟩ (HttpChat.response false "ignored")).1.messages
          = [chatGreeting]
            ++ [{ role := Role.user, content := jsTrim "what is this?" },
                { role := Role.assistant, content := chatErrorText }] :=
  chat_failure_distinguishable ⟨1, "/a/cat.png", "image", none, none, [], [], [], none⟩
    ⟨[chatGreeting], "what is this?", false⟩ (HttpChat.response false "ignored")
    (by decide) rfl rfl

/-! ## C7 -/

/-- C7: chat is a stateless single-turn call — the request body sent by
`handleSend` is exactly the selected file's path and the trimmed current
prompt, it does not depend on the transcript history, and the transcript is
reset to the greeting (or cleared) whenever the selected item changes. -/
theorem chat_stateless_single_turn (item : MediaItem) (st st2 : ChatState)
    (r : HttpChat) (hin : st2.input = st.input) (hld : st2.isLoading = st.isLoading) :
    (∀ body, (handleSend item st r).2 = some body →
        body = { file_path := item.file_path, prompt := jsTrim st.input })
      ∧ (handleSend item st r).2 = (handleSend item st2 r).2
      ∧ chatReset (some item) = [chatGreeting]
      ∧ chatReset none = [] := by
  refine ⟨?_, ?_, rfl, rfl⟩
  · intro body hb
    by_cases hc : jsTrim st.input = ""
    · simp [handleSend, hc] at hb
    · by_cases hl : st.isLoading = true
      · simp [handleSend, hl] at hb
      · simp only [Bool.not_eq_true] at hl
        simp [handleSend, chatWithImage, hc, hl] at hb
        exact hb.symm
  · by_cases hc : jsTrim st.input = "" <;> by_cases hl : st.isLoading = true <;>
      simp [handleSend, chatWithImage, hc, hl, hin, hld]

/-- Closed instance of `chat_stateless_single_turn`: two states with
different transcripts produce the same request body. -/
theorem chat_stateless_single_turn_witness :
    (∀ body, (handleSend ⟨1, "/a/cat.png", "image", none, none, [], [], [], none⟩
        ⟨[chatGreeting], "describe it", false⟩ (HttpChat.response true "a cat")).2 = some body →
        body = { file_path := "/a/cat.png", prompt := jsTrim "describe it" })
      ∧ (handleSend ⟨1, "/a/cat.png", "image", none, none, [], [], [], none⟩
          ⟨[chatGreeting], "describe it", false⟩ (HttpChat.response true "a cat")).2
        = (handleSend ⟨1, "/a/cat.png", "image", none, none, [], [], [], none⟩
          ⟨[], "describe it", false⟩ (HttpChat.response true "a cat")).2
      ∧ chatReset (some ⟨1, "/a/cat.png", "image", none, none, [], [], [], none⟩) = [chatGreeting]
      ∧ chatReset none = [] :=
  chat_stateless_single_turn ⟨1, "/a/cat.png", "image", none, none, [], [], [], none⟩
    ⟨[chatGreeting], "describe it", false⟩ ⟨[], "describe it", false⟩
    (HttpChat.response true "a cat") rfl rfl

/-! ## C9 -/

theorem mem_filterMediaType (f : FilterState) (rs : List MediaItem)
    (item : MediaItem) (hmem : item ∈ filterMediaType f rs) :
    item ∈ rs ∧ ∀ mt, f.media_type = some mt → mt ≠ "" → item.media_type = mt := by
  unfold filterMediaType at hmem
  split at hmem
  case isTrue h =>
    rw [List.mem_filter] at hmem
    refine ⟨hmem.1, ?_⟩
    intro mt hmt _
    have := hmem.2
    rw [hmt] at this
    simpa using this
  case isFalse h =>
    refine ⟨hmem, ?_⟩
    intro mt hmt hne
    exact absurd (by simp [jsStrTruthy, hmt, hne]) h

theorem mem_filterCharacter (f : FilterState) (rs : List MediaItem)
    (item : MediaItem) (hmem : item ∈ filterCharacter f rs) :
    item ∈ rs ∧ ∀ c, f.character = some c → c ≠ "" → c ∈ item.character_tags := by
  unfold filterCharacter at hmem
  split at hmem
  case isTrue h =>
    rw [List.mem_filter] at hmem
    refine ⟨hmem.1, ?_⟩
    intro c hc _
    have := hmem.2
    rw [hc] at this
    simpa using this
  case isFalse h =>
    refine ⟨hmem, ?_⟩
    intro c hc hne
    exact absurd (by simp [jsStrTruthy, hc, hne]) h

theorem mem_filterSeries (f : FilterState) (rs : List MediaItem)
    (item : MediaItem) (hmem : item ∈ filterSeries f rs) :
    item ∈ rs ∧ ∀ sv, f.series = some sv → sv ≠ "" → sv ∈ item.series_tags := by
  unfold filterSeries at hmem
  split at hmem
  case isTrue h =>
    rw [List.mem_filter] at hmem
    refine ⟨hmem.1, ?_⟩
    intro sv hsv _
    have := hmem.2
    rw [hsv] at this
    simpa using this
  case isFalse h =>
    refine ⟨hmem, ?_⟩
    intro sv hsv hne
    exact absurd (by simp [jsStrTruthy, hsv, hne]) h

/-- C9: after a non-empty semantic search with active sidebar filters, every
item the Home page displays satisfies every active filter — matching
media type, the character filter among its character tags, the series filter
among its series tags — because the results are filtered client-side after
the search response. -/
theorem search_results_respect_filters (q : String) (f : FilterState)
    (st : HomeState) (results : List MediaItem) (item : MediaItem)
    (hq : jsTrim q ≠ "")
    (hmem : item ∈ (handleSearch q f st (Except.ok results)).1.media) :
    (∀ mt, f.media_type = some mt → mt ≠ "" → item.media_type = mt)
      ∧ (∀ c, f.character = some c → c ≠ "" → c ∈ item.character_tags)
      ∧ (∀ sv, f.series = some sv → sv ≠ "" → sv ∈ item.series_tags) := by
  have hmedia : (handleSearch q f st (Except.ok results)).1.media
      = applyClientFilters f results := by
    simp [handleSearch, hq]
  rw [hmedia, applyClientFilters] at hmem
  obtain ⟨h2, hse⟩ := mem_filterSeries f _ item hmem
  obtain ⟨h1, hch⟩ := mem_filterCharacter f _ item h2
  obtain ⟨_, hmt⟩ := mem_filterMediaType f _ item h1
  exact ⟨hmt, hch, hse⟩

/-- Closed instance of `search_results_respect_filters` on a concrete
two-item response with all three filters active. -/
theorem search_results_respect_filters_witness :
    (∀ mt, (FilterState.mk (some "alice") (some "wonder") (some "image")).media_type = some mt →
        mt ≠ "" → (MediaItem.mk 1 "/a.png" "image" none none [] ["alice"] ["wonder"] none).media_type = mt)
      ∧ (∀ c, (FilterState.mk (some "alice") (some "wonder") (some "image")).character = some c →
          c ≠ "" → c ∈ (MediaItem.mk 1 "/a.png" "image" none none [] ["alice"] ["wonder"] none).character_tags)
      ∧ (∀ sv, (FilterState.mk (some "alice") (some "wonder") (some "image")).series = some sv →
          sv ≠ "" → sv ∈ (MediaItem.mk 1 "/a.png" "image" none none [] ["alice"] ["wonder"] none).series_tags) :=
  search_results_respect_filters "forest" ⟨some "alice", some "wonder", some "image"⟩
    ⟨[], none, false, "", "", 0, true, false⟩
    [⟨1, "/a.png", "image", none, none, [], ["alice"], ["wonder"], none⟩,
     ⟨2, "/b.mp4", "video", none, none, [], [], [], none⟩]
    ⟨1, "/a.png", "image", none, none, [], ["alice"], ["wonder"], none⟩
    (by decide) (by decide)

/-! ## C4 -/

/-- With `q` truthy the infinite-query loop never continues past the first
page. -/
theorem iqLoop_stops (q character series media_type : Option String)
    (server : ApiRequest → List MediaItem) (fuel : Nat)
    (pages : List (List MediaItem)) (reqs : List ApiRequest)
    (lastPage : List MediaItem) (hqt : jsStrTruthy q = true) :
    iqLoop q character series media_type server fuel pages reqs lastPage
      = (pages, reqs) := by
  cases fuel with
  | zero => rfl
  | succ n => simp [iqLoop, getNextPageParam, hqt]

/-- C4: a non-empty search fetches exactly one page — `handleSearch` issues
the single `POST /gallery/search` with `top_k = 50` and sets `hasMore` to
`false`, after which `handleLoadMore` issues nothing; in the infinite-query
variant `getNextPageParam` is `undefined` whenever `q` is set, so the whole
query performs exactly one search request. -/
theorem search_single_page (q : String) (f : FilterState) (st : HomeState)
    (outcome : Except Unit (List MediaItem)) (fuel : Nat)
    (server : ApiRequest → List MediaItem)
    (character series media_type : Option String)
    (hq : jsTrim q ≠ "") :
    (handleSearch q f st outcome).2 = [ApiRequest.gallerySearch q 50]
      ∧ (∀ results, outcome = Except.ok results →
          (handleSearch q f st outcome).1.hasMore = false)
      ∧ (∀ out2, handleLoadMore (handleSearch q f st outcome).1 f out2
          = ((handleSearch q f st outcome).1, []))
      ∧ (∀ lastPage n, getNextPageParam (some q) lastPage n = none)
      ∧ runInfiniteQuery fuel (some q) character series media_type server
          = ([server (ApiRequest.gallerySearch q 50)],
             [ApiRequest.gallerySearch q 50]) := by
  have hq0 : q ≠ "" := trim_ne_of_ne q hq
  have htr : jsStrTruthy (some q) = true := jsStrTruthy_of_ne q hq0
  refine ⟨?_, ?_, ?_, ?_, ?_⟩
  · cases outcome <;> simp [handleSearch, hq, searchMedia]
  · intro results hr
    subst hr
    simp [handleSearch, hq]
  · intro out2
    have hcs : (handleSearch q f st outcome).1.currentSearch = q := by
      cases outcome <;> simp [handleSearch, hq]
    simp [handleLoadMore, hcs, hq0]
  · intro lastPage n
    simp [getNextPageParam, htr]
  · simp [runInfiniteQuery, fetchGallery, htr, iqLoop_stops]

/-- Closed instance of `search_single_page` at `q = "sunset"`. -/
theorem search_single_page_witness :
    (handleSearch "sunset" ⟨none, none, none⟩
        ⟨[], none, false, "", "", 0, true, false⟩ (Except.ok [])).2
      = [ApiRequest.gallerySearch "sunset" 50]
      ∧ (∀ results, (Except.ok [] : Except Unit (List MediaItem)) = Except.ok results →
          (handleSearch "sunset" ⟨none, none, none⟩
            ⟨[], none, false, "", "", 0, true, false⟩ (Except.ok [])).1.hasMore = false)
      ∧ (∀ out2, handleLoadMore (handleSearch "sunset" ⟨none, none, none⟩
            ⟨[], none, false, "", "", 0, true, false⟩ (Except.ok [])).1 ⟨none, none, none⟩ out2
          = ((handleSearch "sunset" ⟨none, none, none⟩
            ⟨[], none, false, "", "", 0, true, false⟩ (Except.ok [])).1, []))
      ∧ (∀ lastPage n, getNextPageParam (some "sunset") lastPage n = none)
      ∧ runInfiniteQuery 3 (some "sunset") none none none (fun _ => [])
          = ([(fun (_ : ApiRequest) => ([] : List MediaItem)) (ApiRequest.gallerySearch "sunset" 50)],
             [ApiRequest.gallerySearch "sunset" 50]) :=
  search_single_page "sunset" ⟨none, none, none⟩
    ⟨[], none, false, "", "", 0, true, false⟩ (Except.ok []) 3 (fun _ => [])
    none none none (by decide)

/-! ## C5 -/

theorem mem_insertRanked (x a : EmbRecord × Int) (l : List (EmbRecord × Int)) :
    a ∈ insertRanked x l ↔ a = x ∨ a ∈ l := by
  induction l with
  | nil => simp [insertRanked]
  | cons y ys ih =>
      by_cases h : rankBefore x y = true
      · simp [insertRanked, h]
      · simp only [Bool.not_eq_true] at h
        simp [insertRanked, h, ih]
        tauto

theorem mem_sortRanked (a : EmbRecord × Int) (l : List (EmbRecord × Int)) :
    a ∈ sortRanked l ↔ a ∈ l := by
  induction l with
  | nil => simp [sortRanked]
  | cons x xs ih => simp [sortRanked, mem_insertRanked, ih]

theorem mem_dedupByFile (a : EmbRecord × Int) (l : List (EmbRecord × Int)) :
    ∀ seen : List Nat, a ∈ dedupByFile l seen → a ∈ l := by
  induction l with
  | nil =>
      intro seen h
      simp [dedupByFile] at h
  | cons x xs ih =>
      intro seen h
      unfold dedupByFile at h
      by_cases hc : seen.contains x.1.fileId = true
      · rw [if_pos hc] at h
        exact List.mem_cons_of_mem _ (ih _ h)
      · rw [if_neg hc] at h
        rcases List.mem_cons.mp h with h1 | h2
        · exact h1 ▸ List.mem_cons_self _ _
        · exact List.mem_cons_of_mem _ (ih _ h2)

/-- Every search result is built from a record of the index: its file, its
score, and its snippet are that record's. -/
theorem searchIndex_origin (qv : List Int) (idx : List EmbRecord) (k : Nat)
    (res : SearchResult) (hres : res ∈ searchIndex qv idx k) :
    ∃ r ∈ idx, res = ⟨r.fileId, dotScore qv r.vec, r.segText⟩ := by
  unfold searchIndex at hres
  rw [List.mem_map] at hres
  obtain ⟨p, hp, hpe⟩ := hres
  have hp2 := List.take_subset k _ hp
  have hp3 := mem_dedupByFile p _ _ hp2
  rw [mem_sortRanked, List.mem_map] at hp3
  obtain ⟨r, hr, hpr⟩ := hp3
  subst hpr
  exact ⟨r, hr, hpe.symm⟩

/-- C5: every item returned by the (spec-modelled) search carries a snippet
exactly when its winning EmbeddingRecord belongs to a text Segment, and the
client renders the snippet block for an item exactly when the snippet is
present (given that text Segments carry non-empty text). -/
theorem search_snippet_exact (qv : List Int) (idx : List EmbRecord) (k : Nat)
    (hne : ∀ r ∈ idx, ∀ t, r.segText = some t → t ≠ "")
    (res : SearchResult) (hres : res ∈ searchIndex qv idx k) :
    (∃ r ∈ idx, res.snippet = r.segText)
      ∧ (∀ item : MediaItem, item.snippet = res.snippet →
          (renderSnippetBlock item).isSome = res.snippet.isSome) := by
  obtain ⟨r, hr, hform⟩ := searchIndex_origin qv idx k res hres
  refine ⟨⟨r, hr, by rw [hform]⟩, ?_⟩
  intro item hitem
  cases hsn : res.snippet with
  | none => simp [renderSnippetBlock, jsStrTruthy, hitem, hsn]
  | some t =>
      have ht : t ≠ "" := by
        apply hne r hr
        rw [hform] at hsn
        exact hsn
      simp [renderSnippetBlock, jsStrTruthy, hitem, hsn, ht]

/-- Closed instance of `search_snippet_exact`: a transcript-segment record
wins and its text is the snippet; the image-level record carries none. -/
theorem search_snippet_exact_witness :
    (∃ r ∈ [EmbRecord.mk 1 10 (some "a crimson sunset") [1, 0],
            EmbRecord.mk 2 11 none [0, 1]],
        (SearchResult.mk 10 1 (some "a crimson sunset")).snippet = r.segText)
      ∧ (∀ item : MediaItem,
          item.snippet = (SearchResult.mk 10 1 (some "a crimson sunset")).snippet →
          (renderSnippetBlock item).isSome
            = (SearchResult.mk 10 1 (some "a crimson sunset")).snippet.isSome) :=
  search_snippet_exact [1, 0]
    [⟨1, 10, some "a crimson sunset", [1, 0]⟩, ⟨2, 11, none, [0, 1]⟩] 5
    (by
      intro r hr t ht
      simp only [List.mem_cons, List.not_mem_nil, or_false] at hr
      rcases hr with h | h <;> subst h
      · have := Option.some.inj ht
        subst this
        decide
      · exact absurd ht (by simp))
    ⟨10, 1, some "a crimson sunset"⟩ (by decide)

/-! ## C1 -/

theorem metaLookup_upsert_self (m : List (String × FileMeta)) (p : String)
    (fm : FileMeta) : metaLookup (upsertMeta m p fm) p = some fm := by
  simp [upsertMeta, metaLookup]

theorem metaLookup_filter_ne (m : List (String × FileMeta)) (p q : String)
    (h : q ≠ p) :
    metaLookup (m.filter (fun x => x.1 ≠ p)) q = metaLookup m q := by
  have hpq : p ≠ q := fun hh => h hh.symm
  induction m with
  | nil => rfl
  | cons kv rest ih =>
      by_cases hk : kv.1 = p
      · simp only [List.filter_cons, hk]
        rw [if_neg (by simp)]
        rw [ih]
        have : metaLookup (kv :: rest) q = metaLookup rest q := by
          show (if kv.1 = q then some kv.2 else metaLookup rest q) = _
          rw [if_neg (by rw [hk]; exact hpq)]
        rw [this]
      · simp only [List.filter_cons]
        rw [if_pos (by simp [hk])]
        show (if kv.1 = q then some kv.2 else metaLookup (rest.filter _) q)
          = (if kv.1 = q then some kv.2 else metaLookup rest q)
        by_cases hq2 : kv.1 = q
        · rw [if_pos hq2, if_pos hq2]
        · rw [if_neg hq2, if_neg hq2, ih]

theorem metaLookup_upsert_ne (m : List (String × FileMeta)) (p q : String)
    (fm : FileMeta) (h : q ≠ p) :
    metaLookup (upsertMeta m p fm) q = metaLookup m q := by
  have hpq : p ≠ q := fun hh => h hh.symm
  show (if p = q then some fm else metaLookup (m.filter (fun x => x.1 ≠ p)) q)
    = metaLookup m q
  rw [if_neg hpq, metaLookup_filter_ne m p q h]

theorem liveVec_cons (e : VecEntry) (es : List VecEntry) (q : String) :
    liveVec (e :: es) q
      = if e.owner = q ∧ e.pendingMark = false then e.id :: liveVec es q
        else liveVec es q := by
  by_cases h1 : e.owner = q
  · by_cases h2 : e.pendingMark = true
    · simp [liveVec, List.filter_cons, h1, h2]
    · simp only [Bool.not_eq_true] at h2
      simp [liveVec, List.filter_cons, h1, h2]
  · simp [liveVec, List.filter_cons, h1]

theorem liveVec_append (v w : List VecEntry) (p : String) :
    liveVec (v ++ w) p = liveVec v p ++ liveVec w p := by
  simp [liveVec, List.filter_append]

theorem liveVec_staged (ids : List Nat) (p q : String) :
    liveVec (ids.map (stagedEntry p)) q = [] := by
  induction ids with
  | nil => rfl
  | cons i is ih =>
      rw [List.map_cons, liveVec_cons, if_neg (by simp [stagedEntry])]
      exact ih

theorem liveVec_committed_self (ids : List Nat) (p : String) :
    liveVec (ids.map (committedEntry p)) p = ids := by
  induction ids with
  | nil => rfl
  | cons i is ih =>
      rw [List.map_cons, liveVec_cons, if_pos ⟨rfl, rfl⟩, ih]
      rfl

theorem liveVec_committed_ne (ids : List Nat) (p q : String) (h : q ≠ p) :
    liveVec (ids.map (committedEntry p)) q = [] := by
  have hpq : p ≠ q := fun hh => h hh.symm
  induction ids with
  | nil => rfl
  | cons i is ih =>
      rw [List.map_cons, liveVec_cons, if_neg (by simp [committedEntry, hpq])]
      exact ih

theorem liveVec_filter_self (v : List VecEntry) (p : String) :
    liveVec (v.filter (fun e => e.owner ≠ p)) p = [] := by
  induction v with
  | nil => rfl
  | cons e es ih =>
      by_cases he : e.owner = p
      · rw [List.filter_cons, if_neg (by simp [he])]
        exact ih
      · rw [List.filter_cons, if_pos (by simp [he]), liveVec_cons,
          if_neg (by simp [he])]
        exact ih

theorem liveVec_filter_ne (v : List VecEntry) (p q : String) (h : q ≠ p) :
    liveVec (v.filter (fun e => e.owner ≠ p)) q = liveVec v q := by
  have hpq : p ≠ q := fun hh => h hh.symm
  induction v with
  | nil => rfl
  | cons e es ih =>
      by_cases he : e.owner = p
      · rw [List.filter_cons, if_neg (by simp [he]), liveVec_cons,
          if_neg (by rw [he]; simp [hpq]), ih]
      · rw [List.filter_cons, if_pos (by simp [he]), liveVec_cons, liveVec_cons, ih]

/-- C1: in every state the (spec-modelled) Scan Orchestrator can produce —
including a crash between the write steps of the per-file unit — every
MediaFile with `status = processed` has its reachable EmbeddingRecord ids
equal to the ids present (live) in the Vector Index for it, never a strict
superset or subset. -/
theorem scan_dualstore_consistency (s : Stores) (h : Reachable s) :
    Consistent s := by
  induction h with
  | init =>
      intro p fm hlk
      simp [Stores.init, metaLookup] at hlk
  | @step s0 t0 hr hs ih =>
      cases hs with
      | stageVectors pth ids hfresh =>
          intro q fm hlk hst i
          have hbase := ih q fm hlk hst i
          show i ∈ fm.embIds ↔ i ∈ liveVec (s0.vec ++ ids.map (stagedEntry pth)) q
          rw [liveVec_append, liveVec_staged, List.append_nil]
          exact hbase
      | commitFile pth ids hstaged =>
          intro q fm hlk hst i
          have hlk2 : metaLookup
              (upsertMeta s0.meta pth ⟨FileStatus.processed, ids⟩) q = some fm := hlk
          by_cases hq : q = pth
          · subst hq
            rw [metaLookup_upsert_self] at hlk2
            have hfm : fm = ⟨FileStatus.processed, ids⟩ := (Option.some.inj hlk2).symm
            subst hfm
            show i ∈ ids ↔
              i ∈ liveVec (s0.vec.filter (fun e => e.owner ≠ q)
                ++ ids.map (committedEntry q)) q
            rw [liveVec_append, liveVec_filter_self, liveVec_committed_self,
              List.nil_append]
          · rw [metaLookup_upsert_ne s0.meta pth q _ hq] at hlk2
            have hbase := ih q fm hlk2 hst i
            show i ∈ fm.embIds ↔
              i ∈ liveVec (s0.vec.filter (fun e => e.owner ≠ pth)
                ++ ids.map (committedEntry pth)) q
            rw [liveVec_append, liveVec_committed_ne ids pth q hq, List.append_nil,
              liveVec_filter_ne s0.vec pth q hq]
            exact hbase
      | markFailed pth =>
          intro q fm hlk hst i
          have hlk2 : metaLookup
              (upsertMeta s0.meta pth ⟨FileStatus.failed, []⟩) q = some fm := hlk
          by_cases hq : q = pth
          · subst hq
            rw [metaLookup_upsert_self] at hlk2
            have hfm : fm = ⟨FileStatus.failed, []⟩ := (Option.some.inj hlk2).symm
            subst hfm
            exact absurd hst (by decide)
          · rw [metaLookup_upsert_ne s0.meta pth q _ hq] at hlk2
            exact ih q fm hlk2 hst i

/-- Closed instance of `scan_dualstore_consistency`: the state reached by
staging and committing `[1, 2]` for one file and then crashing after
staging `[3, 4]` for its reprocess — mid-unit — is consistent. -/
theorem scan_dualstore_consistency_witness :
    Consistent
      { meta := upsertMeta [] "/pics/a.png" ⟨FileStatus.processed, [1, 2]⟩
      , vec := ((([] ++ [1, 2].map (stagedEntry "/pics/a.png")).filter
            (fun e => e.owner ≠ "/pics/a.png")
          ++ [1, 2].map (committedEntry "/pics/a.png"))
          ++ [3, 4].map (stagedEntry "/pics/a.png")) } :=
  scan_dualstore_consistency _
    (Reachable.step
      (Reachable.step
        (Reachable.step Reachable.init
          (ScanStep.stageVectors Stores.init "/pics/a.png" [1, 2] (by decide)))
        (ScanStep.commitFile _ "/pics/a.png" [1, 2] (by decide)))
      (ScanStep.stageVectors _ "/pics/a.png" [3, 4] (by decide)))

end SortFiles
